import Mathlib

-- Verification of the version-check and step-assembly core of invenio-cli
-- (src/invenio_cli/commands/requirements.py and src/invenio_cli/commands/install.py),
-- shallowly embedded in Lean 4.

set_option maxHeartbeats 1000000

/-- Modelled from the spec: the ProcessResponse record from helpers/process.py
(not part of the sources under verification): an output string, an error string
and an integer status code; fields not passed at a construction site default to
the empty string (status code 0). -/
structure ProcessResponse where
  output : String
  error : String
  status_code : Int
deriving DecidableEq, Repr

-- ### Python primitives used by requirements.py, embedded from their semantics.

/-- Accumulator for decimal digit runs, as consumed by Python `int`. -/
def digitsToNatAux : List Char → Nat → Option Nat
  | [], acc => some acc
  | c :: cs, acc =>
    if c.isDigit then digitsToNatAux cs (acc * 10 + (c.toNat - 48)) else none

/-- A non-empty all-digit run read as a natural number; `none` otherwise. -/
def digitsToNat : List Char → Option Nat
  | [] => none
  | l => digitsToNatAux l 0

/-- Python `int(s)`: optional surrounding whitespace, optional sign, then a
non-empty digit run; raises `ValueError` (here `none`) otherwise. -/
def pyInt (s : List Char) : Option Int :=
  let t := ((s.dropWhile Char.isWhitespace).reverse.dropWhile Char.isWhitespace).reverse
  match t with
  | '-' :: ds => (digitsToNat ds).map (fun n => -(n : Int))
  | '+' :: ds => (digitsToNat ds).map (fun n => (n : Int))
  | ds => (digitsToNat ds).map (fun n => (n : Int))

/-- Python `s.split(".")`: split on every dot, keeping empty pieces. -/
def splitDot : List Char → List (List Char)
  | [] => [[]]
  | c :: rest =>
    if c = '.' then [] :: splitDot rest
    else
      match splitDot rest with
      | h :: t => (c :: h) :: t
      | [] => [[c]]

-- ### _version_from_string (requirements.py lines 26-29).
-- Python: re.search(r"[0-9]*\.[0-9]*\.[0-9]*", string).group(0).
-- The regex engine returns the leftmost match; at a given start position the
-- digit runs are matched greedily (maximal munch is exact here, because after a
-- maximal digit run the next character is not a digit, so backtracking to a
-- shorter run can never make the following literal dot match).

/-- One attempt of the pattern `[0-9]*\.[0-9]*\.[0-9]*` anchored at the head of
the list: greedy digit run, a literal dot, greedy digit run, a literal dot,
greedy digit run. -/
def matchVersionAt (l : List Char) : Option (List Char) :=
  let d1 := l.takeWhile Char.isDigit
  match l.dropWhile Char.isDigit with
  | '.' :: r1 =>
    let d2 := r1.takeWhile Char.isDigit
    match r1.dropWhile Char.isDigit with
    | '.' :: r2 => some (d1 ++ '.' :: (d2 ++ '.' :: r2.takeWhile Char.isDigit))
    | _ => none
  | _ => none

/-- `re.search`: try the pattern at each start position, left to right. -/
def searchVersion : List Char → Option (List Char)
  | [] => none
  | l@(_ :: t) =>
    match matchVersionAt l with
    | some m => some m
    | none => searchVersion t

/-- `RequirementsCommands._version_from_string`: the first regex match, or
`none` when `re.search` returns `None` (in Python `.group(0)` then raises
`AttributeError`). -/
def version_from_string (s : String) : Option String :=
  (searchVersion s.data).map String.mk

-- ### _check_version (requirements.py lines 31-72).

/-- The exact-mode comparison (lines 45-49). -/
def version_ok_exact (p0 p1 p2 major minor patch : Int) : Bool :=
  let major_match := p0 == major
  let minor_match := minor == -1 || p1 == minor
  let patch_match := patch == -1 || p2 == patch
  major_match && minor_match && patch_match

/-- The minimum-mode comparison chain (lines 50-56), kept literally. -/
def version_ok_min (p0 p1 p2 major minor patch : Int) : Bool :=
  let major_higher := decide (p0 > major)
  let major_ok := decide (p0 ≥ major)
  let minor_higher := major_ok && decide (p1 > minor)
  let minor_ok := major_ok && decide (p1 ≥ minor)
  let patch_ok := minor_ok && decide (p2 ≥ patch)
  major_higher || minor_higher || patch_ok

/-- The malformed-version response (lines 36-40). -/
def formatError (binary : String) : ProcessResponse :=
  ⟨"", binary ++ " incorrect version format or not found. Check that it is installed correctly", 1⟩

/-- Rendering of the expected version in the failure message (lines 63-67):
only the fields given (greater than -1) are printed. -/
def expectedRender (major minor patch : Int) : String :=
  if minor > -1 then
    if patch > -1 then toString major ++ "." ++ toString minor ++ "." ++ toString patch
    else toString major ++ "." ++ toString minor
  else toString major

/-- `RequirementsCommands._check_version`. The `Except.error` branch models a
raised `ValueError` from `int(num)` on a non-numeric part; note the failure
message concatenates two adjacent f-strings with no space between
`"wrong version."` and `"Got"`, and renders the parts as a Python list. -/
def check_version (binary version : String) (major minor patch : Int)
    (exact : Bool) : Except String ProcessResponse :=
  match splitDot version.data with
  | [s0, s1, s2] =>
    match pyInt s0, pyInt s1, pyInt s2 with
    | some p0, some p1, some p2 =>
      if (if exact then version_ok_exact p0 p1 p2 major minor patch
          else version_ok_min p0 p1 p2 major minor patch) then
        .ok ⟨binary ++ " version OK. Got " ++ version ++ ".", "", 0⟩
      else
        .ok ⟨"", binary ++ " wrong version.Got [" ++ toString p0 ++ ", " ++ toString p1 ++
          ", " ++ toString p2 ++ "] expected " ++ expectedRender major minor patch, 1⟩
    | _, _, _ => .error "ValueError"
  | _ => .ok (formatError binary)

-- ### Claim C1: minimum mode is lexicographic triple >=.

/-- C1: in minimum-version mode the comparison chain of `_check_version`
succeeds exactly on lexicographic triple order `parsed >= spec`; in particular
(14,19,0) passes spec (14,18,5) and (13,9,9) fails spec (14,0,0). -/
theorem c1_min_mode_is_lex_ge :
    (∀ p0 p1 p2 major minor patch : Int,
      version_ok_min p0 p1 p2 major minor patch = true ↔
        (p0 > major ∨ (p0 = major ∧ p1 > minor) ∨
          (p0 = major ∧ p1 = minor ∧ p2 ≥ patch))) ∧
    version_ok_min 14 19 0 14 18 5 = true ∧
    version_ok_min 13 9 9 14 0 0 = false := by
  refine ⟨?_, by decide, by decide⟩
  intro p0 p1 p2 major minor patch
  simp only [version_ok_min, Bool.or_eq_true, Bool.and_eq_true, decide_eq_true_eq]
  omega

-- ### Claim C4: exact mode with wildcards.

/-- C4: in exact mode the check succeeds iff the major matches and each of
minor and patch is either unset (-1) or matches; (3,9,5) passes spec
(3,9,unset,exact) while (3,10,5) fails it. -/
theorem c4_exact_mode_wildcards :
    (∀ p0 p1 p2 major minor patch : Int,
      version_ok_exact p0 p1 p2 major minor patch = true ↔
        (p0 = major ∧ (minor = -1 ∨ p1 = minor) ∧ (patch = -1 ∨ p2 = patch))) ∧
    version_ok_exact 3 9 5 3 9 (-1) = true ∧
    version_ok_exact 3 10 5 3 9 (-1) = false := by
  refine ⟨?_, by decide, by decide⟩
  intro p0 p1 p2 major minor patch
  simp only [version_ok_exact, Bool.or_eq_true, Bool.and_eq_true, beq_iff_eq]
  tauto

-- ### Steps and step-list builders (install.py, requirements.py lines 194-261).

/-- The functions wrapped by FunctionStep in the two source files. -/
inductive FuncId
  | checkPythonVersion
  | checkPipenvInstalled
  | checkDockerVersion
  | checkDockerComposeVersion
  | checkNodeVersion
  | checkNpmVersion
  | checkImagemagickVersion
  | checkGitVersion
  | updateInstancePath
  | symlinkProjectFileOrFolder
  | updateStaticsAndAssets
deriving DecidableEq, Repr

/-- A Python keyword-argument value as passed in the `args` mappings. -/
inductive PyVal
  | int (n : Int)
  | str (s : String)
  | bool (b : Bool)
deriving DecidableEq, Repr

/-- `FunctionStep(func=..., args=..., message=...)` descriptor. -/
structure FunctionStep where
  func : FuncId
  args : List (String × PyVal)
  message : String
deriving DecidableEq, Repr

/-- `RequirementsCommands.check_dev` (lines 194-231): the node/npm minimum
versions are selected from the detected rdm major version, then four fixed
steps are returned. -/
def check_dev (rdmMajor : Int) : List FunctionStep :=
  let node_version : Int := if rdmMajor ≥ 12 then 18 else if rdmMajor ≥ 11 then 16 else 14
  let npm_version : Int := if rdmMajor ≥ 12 then 10 else if rdmMajor ≥ 11 then 7 else 6
  [ ⟨.checkNodeVersion, [("major", .int node_version)], "Checking Node version..."⟩,
    ⟨.checkNpmVersion, [("major", .int npm_version)], "Checking NPM version..."⟩,
    ⟨.checkImagemagickVersion, [("major", .int 0), ("minor", .int 0)], "Checking ImageMagick version..."⟩,
    ⟨.checkGitVersion, [("major", .int 0), ("minor", .int 0)], "Checking git version..."⟩ ]

/-- `RequirementsCommands.check` (lines 233-261): four fixed steps, with the
dev-tool checks appended when `development` is set. -/
def check (rdmMajor : Int) (development : Bool) : List FunctionStep :=
  let steps : List FunctionStep :=
    [ ⟨.checkPythonVersion, [("major", .int 3), ("minor", .int 9)], "Checking Python version..."⟩,
      ⟨.checkPipenvInstalled, [], "Checking Pipenv is installed..."⟩,
      ⟨.checkDockerVersion, [("major", .int 0), ("minor", .int 0)], "Checking Docker version..."⟩,
      ⟨.checkDockerComposeVersion, [("major", .int 1), ("minor", .int 17)], "Checking Docker Compose version..."⟩ ]
  steps ++ (if development then check_dev rdmMajor else [])

/-- The collaborator outputs consumed by InstallCommands: the step lists
returned by `PackagesCommands.lock` and
`PackagesCommands.install_locked_dependencies` (packages.py is outside the
verified sources, so the lists are left abstract) and the status code of
`PackagesCommands.is_locked()`. -/
structure InstallCtx where
  lockSteps : List FunctionStep
  installLockedSteps : List FunctionStep
  lockedStatusCode : Int
deriving Repr

/-- `InstallCommands.install_py_dependencies` (install.py lines 26-37): when
`is_locked()` reports a non-zero status the lock steps are prepended, then the
install-locked-dependencies steps follow. -/
def install_py_dependencies (ctx : InstallCtx) (pre dev : Bool) : List FunctionStep :=
  (if ctx.lockedStatusCode > 0 then ctx.lockSteps else []) ++ ctx.installLockedSteps

/-- The single-quote character, U+0027, used in the symlink step messages. -/
def singleQuote : String := String.singleton (Char.ofNat 39)

/-- `InstallCommands.symlink` (install.py lines 64-83): update the instance
path, then symlink the three fixed targets; each message quotes its target. -/
def symlink : List FunctionStep :=
  ⟨.updateInstancePath, [], "Updating instance path..."⟩ ::
    (["invenio.cfg", "templates", "app_data"].map fun path =>
      ⟨.symlinkProjectFileOrFolder, [("target", .str path)],
        "Symlinking " ++ singleQuote ++ path ++ singleQuote ++ "..."⟩)

/-- `InstallCommands.install_assets` (install.py lines 85-93). -/
def install_assets (debug : PyVal) : List FunctionStep :=
  [⟨.updateStaticsAndAssets, [("force", .bool true), ("debug", debug)], "Updating statics and assets..."⟩]

/-- `InstallCommands.install` (install.py lines 95-100): note that
`flask_env` — not `debug` — is passed as `install_assets`'s `debug`
argument, and `install`'s own `debug` parameter is never used. -/
def install (ctx : InstallCtx) (pre dev : Bool) (debug flask_env : PyVal) : List FunctionStep :=
  install_py_dependencies ctx pre dev ++ symlink ++ install_assets flask_env

-- ### Claim C7: the builders' branches.

/-- A concrete lock step used in counterexamples and witnesses. -/
def lockStepEx : FunctionStep := ⟨.updateInstancePath, [], "Locking dependencies..."⟩

/-- C7 counterexample: `install_py_dependencies` does branch — its output
depends on the `is_locked()` status code, so `check`'s dev-branch is not the
only conditional among the builders. -/
theorem c7_counterexample :
    install_py_dependencies ⟨[lockStepEx], [], 1⟩ true false = [lockStepEx] ∧
    install_py_dependencies ⟨[lockStepEx], [], 0⟩ true false = [] ∧
    ([lockStepEx] : List FunctionStep) ≠ [] := by
  refine ⟨rfl, rfl, by decide⟩

/-- C7 amended: the builders are fixed-order concatenations, but there are
three conditional branches, not one: `check` appends the dev checks when
`development` is set, `install_py_dependencies` prepends the lock steps
exactly when the `is_locked()` status code is positive, and `check_dev`
selects the node/npm versions from the rdm major version; `symlink` and
`install_assets` are unconditional. -/
theorem c7_fixed_order_with_three_branches :
    (∀ rdmMajor : Int, check rdmMajor true = check rdmMajor false ++ check_dev rdmMajor) ∧
    (∀ (ctx : InstallCtx) (pre dev : Bool), 0 < ctx.lockedStatusCode →
      install_py_dependencies ctx pre dev = ctx.lockSteps ++ ctx.installLockedSteps) ∧
    (∀ (ctx : InstallCtx) (pre dev : Bool), ctx.lockedStatusCode ≤ 0 →
      install_py_dependencies ctx pre dev = ctx.installLockedSteps) ∧
    (∀ (ctx : InstallCtx) (pre dev : Bool) (debug flask_env : PyVal),
      install ctx pre dev debug flask_env =
        install_py_dependencies ctx pre dev ++ symlink ++ install_assets flask_env) ∧
    (∀ rdmMajor rdmMajor' : Int, 12 ≤ rdmMajor → 12 ≤ rdmMajor' →
      check_dev rdmMajor = check_dev rdmMajor') := by
  refine ⟨fun rdmMajor => by simp [check], ?_, ?_, fun ctx pre dev d f => rfl, ?_⟩
  · intro ctx pre dev h
    simp [install_py_dependencies, if_pos h]
  · intro ctx pre dev h
    simp [install_py_dependencies, if_neg (by omega : ¬ ctx.lockedStatusCode > 0)]
  · intro a b ha hb
    simp [check_dev, if_pos (by omega : a ≥ 12), if_pos (by omega : b ≥ 12)]

/-- C7 witness: the amended theorem applied at concrete inputs. -/
theorem c7_witness :
    install_py_dependencies ⟨[lockStepEx], [], 1⟩ true false = [lockStepEx] ++ [] ∧
    check_dev 12 = check_dev 13 := by
  exact ⟨c7_fixed_order_with_three_branches.2.1 ⟨[lockStepEx], [], 1⟩ true false (by decide),
    c7_fixed_order_with_three_branches.2.2.2.2 12 13 (by decide) (by decide)⟩

-- ### Claim C10: flask_env is passed as install_assets' debug argument.

/-- C10: the final step of `install` carries args
`{force: True, debug: flask_env}` — `flask_env` is forwarded as
`install_assets`'s `debug` parameter — and `install`'s own `debug`
parameter has no effect on the returned list. -/
theorem c10_install_assets_debug_is_flask_env :
    (∀ (ctx : InstallCtx) (pre dev : Bool) (d f : PyVal),
      ∃ l : List FunctionStep,
        install ctx pre dev d f =
          l ++ [⟨.updateStaticsAndAssets, [("force", .bool true), ("debug", f)], "Updating statics and assets..."⟩]) ∧
    (∀ (ctx : InstallCtx) (pre dev : Bool) (d d' f : PyVal),
      install ctx pre dev d f = install ctx pre dev d' f) := by
  constructor
  · intro ctx pre dev d f
    exact ⟨install_py_dependencies ctx pre dev ++ symlink, by
      simp [install, install_assets]⟩
  · intro ctx pre dev d d' f
    rfl

-- ### Per-tool checks (requirements.py lines 74-94 and 170-192).

/-- Python `s.strip()`: remove whitespace at both ends. -/
def pyStrip (l : List Char) : List Char :=
  ((l.dropWhile Char.isWhitespace).reverse.dropWhile Char.isWhitespace).reverse

/-- Python `s.split(",")`: split on every comma, keeping empty pieces. -/
def splitComma : List Char → List (List Char)
  | [] => [[]]
  | c :: rest =>
    if c = ',' then [] :: splitComma rest
    else
      match splitComma rest with
      | h :: t => (c :: h) :: t
      | [] => [[c]]

/-- The message of the AttributeError Python raises when `re.search` returned
`None` and `.group(0)` is taken on it; the names are surrounded by CPython's
single-quote characters. -/
def attributeErrorMsg : String :=
  singleQuote ++ "NoneType" ++ singleQuote ++ " object has no attribute " ++
    singleQuote ++ "group" ++ singleQuote

/-- `RequirementsCommands.check_node_version` (lines 74-83), with the outcome
of `run_cmd(["node", "--version"])` passed explicitly: `.error e` is a raised
exception with message `e`, `.ok` a returned ProcessResponse. Every exception
raised inside the `try` is translated into a "Node not found" response. -/
def check_node_version (run : Except String ProcessResponse)
    (major minor patch : Int) (exact : Bool) : Except String ProcessResponse :=
  match run with
  | .error err => .ok ⟨"", "Node not found. Got " ++ err ++ ".", 1⟩
  | .ok result =>
    match version_from_string (String.mk (pyStrip result.output.data)) with
    | none => .ok ⟨"", "Node not found. Got " ++ attributeErrorMsg ++ ".", 1⟩
    | some version =>
      match check_version "Node" version major minor patch exact with
      | .ok r => .ok r
      | .error err => .ok ⟨"", "Node not found. Got " ++ err ++ ".", 1⟩

/-- `RequirementsCommands.check_npm_version` (lines 85-94): the same
try/except shape as the node check, for `npm --version` with tool name
"NPM". -/
def check_npm_version (run : Except String ProcessResponse)
    (major minor patch : Int) (exact : Bool) : Except String ProcessResponse :=
  match run with
  | .error err => .ok ⟨"", "NPM not found. Got " ++ err ++ ".", 1⟩
  | .ok result =>
    match version_from_string (String.mk (pyStrip result.output.data)) with
    | none => .ok ⟨"", "NPM not found. Got " ++ attributeErrorMsg ++ ".", 1⟩
    | some version =>
      match check_version "NPM" version major minor patch exact with
      | .ok r => .ok r
      | .error err => .ok ⟨"", "NPM not found. Got " ++ err ++ ".", 1⟩

/-- `RequirementsCommands.check_python_version` (lines 96-109): the version
string is built from the running interpreter's `sys.version_info` components
and passed to `_check_version`, with no try/except around it. -/
def check_python_version (vmajor vminor vmicro : Nat)
    (major minor patch : Int) (exact : Bool) : Except String ProcessResponse :=
  check_version "Python"
    (toString vmajor ++ "." ++ toString vminor ++ "." ++ toString vmicro)
    major minor patch exact

/-- `RequirementsCommands.check_docker_version` (lines 111-121): `run_cmd`,
`json.loads` of the stripped output and the `["Client"]["Version"]` accesses
all happen inside the try (the json library is outside the verified
sources); their combined outcome is the `clientVersion` argument — `.error
e` when any of them raised with message `e`, `.ok s` the extracted version
string, which is passed to `_version_from_string` unstripped. -/
def check_docker_version (clientVersion : Except String String)
    (major minor patch : Int) (exact : Bool) : Except String ProcessResponse :=
  match clientVersion with
  | .error err => .ok ⟨"", "Docker not found. Got " ++ err ++ ".", 1⟩
  | .ok s =>
    match version_from_string s with
    | none => .ok ⟨"", "Docker not found. Got " ++ attributeErrorMsg ++ ".", 1⟩
    | some version =>
      match check_version "Docker" version major minor patch exact with
      | .ok r => .ok r
      | .error err => .ok ⟨"", "Docker not found. Got " ++ err ++ ".", 1⟩

/-- `RequirementsCommands.check_docker_compose_version` (lines 123-138): the
node-check shape for the compose-plugin invocation supplied by the
container-engine helper, with tool name "Docker Compose". -/
def check_docker_compose_version (run : Except String ProcessResponse)
    (major minor patch : Int) (exact : Bool) : Except String ProcessResponse :=
  match run with
  | .error err => .ok ⟨"", "Docker Compose not found. Got " ++ err ++ ".", 1⟩
  | .ok result =>
    match version_from_string (String.mk (pyStrip result.output.data)) with
    | none => .ok ⟨"", "Docker Compose not found. Got " ++ attributeErrorMsg ++ ".", 1⟩
    | some version =>
      match check_version "Docker Compose" version major minor patch exact with
      | .ok r => .ok r
      | .error err => .ok ⟨"", "Docker Compose not found. Got " ++ err ++ ".", 1⟩

/-- `RequirementsCommands.check_imagemagick_version` (lines 140-154): the
node-check shape for `convert --version`, tool name "ImageMagick". -/
def check_imagemagick_version (run : Except String ProcessResponse)
    (major minor patch : Int) (exact : Bool) : Except String ProcessResponse :=
  match run with
  | .error err => .ok ⟨"", "ImageMagick not found. Got " ++ err ++ ".", 1⟩
  | .ok result =>
    match version_from_string (String.mk (pyStrip result.output.data)) with
    | none => .ok ⟨"", "ImageMagick not found. Got " ++ attributeErrorMsg ++ ".", 1⟩
    | some version =>
      match check_version "ImageMagick" version major minor patch exact with
      | .ok r => .ok r
      | .error err => .ok ⟨"", "ImageMagick not found. Got " ++ err ++ ".", 1⟩

/-- `RequirementsCommands.check_git_version` (lines 156-168): the node-check
shape for `git --version`, tool name "git". -/
def check_git_version (run : Except String ProcessResponse)
    (major minor patch : Int) (exact : Bool) : Except String ProcessResponse :=
  match run with
  | .error err => .ok ⟨"", "git not found. Got " ++ err ++ ".", 1⟩
  | .ok result =>
    match version_from_string (String.mk (pyStrip result.output.data)) with
    | none => .ok ⟨"", "git not found. Got " ++ attributeErrorMsg ++ ".", 1⟩
    | some version =>
      match check_version "git" version major minor patch exact with
      | .ok r => .ok r
      | .error err => .ok ⟨"", "git not found. Got " ++ err ++ ".", 1⟩

/-- The per-tool try/except shape, abstracted over the tool name and the
outcome of extracting a version-bearing string inside the try. Each
node-shaped check equals this on the stripped stdout (see the equations
below); used to prove their shared response invariant once. -/
def tool_wrap (tool : String) (vres : Except String String)
    (major minor patch : Int) (exact : Bool) : Except String ProcessResponse :=
  match vres with
  | .error err => .ok ⟨"", tool ++ " not found. Got " ++ err ++ ".", 1⟩
  | .ok s =>
    match version_from_string s with
    | none => .ok ⟨"", tool ++ " not found. Got " ++ attributeErrorMsg ++ ".", 1⟩
    | some version =>
      match check_version tool version major minor patch exact with
      | .ok r => .ok r
      | .error err => .ok ⟨"", tool ++ " not found. Got " ++ err ++ ".", 1⟩

/-- The in-try extraction shared by the node-shaped checks: the command's
stripped stdout on success, the exception otherwise. -/
def toolRunExtract (run : Except String ProcessResponse) : Except String String :=
  match run with
  | .error e => .error e
  | .ok result => .ok (String.mk (pyStrip result.output.data))

/-- `RequirementsCommands.check_pipenv_installed` (lines 170-192). The
`except` handler builds its message from `result.error`; when `run_cmd`
itself raised, `result` was never assigned, so the handler raises
`UnboundLocalError` — modelled by the `.error` result. An IndexError from
`parts[1]` and an AttributeError from `_version_from_string` are caught by
the same handler, with `result` bound. -/
def check_pipenv_installed (run : Except String ProcessResponse) :
    Except String ProcessResponse :=
  match run with
  | .error _ => .error "UnboundLocalError"
  | .ok result =>
    let parts := splitComma (pyStrip result.output.data)
    if parts.headD [] ≠ "pipenv".data then
      .ok ⟨"", "Pipenv not found. Got " ++ String.mk (parts.headD []) ++ ".", 1⟩
    else
      match parts[1]? with
      | none => .ok ⟨"", "Pipenv not found. Got " ++ result.error ++ ".", 1⟩
      | some p1 =>
        match version_from_string (String.mk p1) with
        | none => .ok ⟨"", "Pipenv not found. Got " ++ result.error ++ ".", 1⟩
        | some version => .ok ⟨"Pipenv OK. Got version " ++ version ++ ".", "", 0⟩

-- ### Claim C3: malformed versions.

/-- C3 counterexample: `"1.a.2"` dot-splits into three parts of which one is
not numeric, so the claim requires the format-error response, but
`int("a")` raises a ValueError instead — `_check_version` does crash for
some malformed input strings. -/
theorem c3_counterexample :
    check_version "Node" "1.a.2" 14 (-1) (-1) false = .error "ValueError" ∧
    (Except.error "ValueError" : Except String ProcessResponse) ≠
      .ok (formatError "Node") := by
  exact ⟨rfl, fun h => Except.noConfusion h⟩

/-- C3 amended: whenever the dot-split of the version string does not have
exactly three parts, `_check_version` returns the format-error response with
status code 1 and raises nothing; but a string with exactly three dot-parts,
one of which is not numeric, raises ValueError out of `int`. -/
theorem c3_format_guard (binary version : String) (major minor patch : Int)
    (exact : Bool) (h : (splitDot version.data).length ≠ 3) :
    check_version binary version major minor patch exact = .ok (formatError binary) := by
  unfold check_version
  split
  · next s0 s1 s2 heq => rw [heq] at h; simp at h
  · rfl

/-- C3 witness: the amended theorem at `"abc"` and at `"1.2"`. -/
theorem c3_witness :
    check_version "Node" "abc" 14 (-1) (-1) false = .ok (formatError "Node") ∧
    check_version "Node" "1.2" 14 (-1) (-1) false = .ok (formatError "Node") :=
  ⟨c3_format_guard "Node" "abc" 14 (-1) (-1) false (by decide),
   c3_format_guard "Node" "1.2" 14 (-1) (-1) false (by decide)⟩

-- ### Claim C5: translation of invocation exceptions.

/-- C5: the node check (like npm, docker, compose, imagemagick and git)
translates a raised invocation exception into a "not found" response carrying
the exception's message — but `check_pipenv_installed`'s handler references
the unassigned `result` variable when the invocation itself raised, so there
the exception escalates as an UnboundLocalError crash instead of the claimed
"Pipenv not found. Got <exception message>." response. -/
theorem c5_pipenv_handler_crashes :
    (∀ (e : String) (major minor patch : Int) (exact : Bool),
      check_node_version (.error e) major minor patch exact =
        .ok ⟨"", "Node not found. Got " ++ e ++ ".", 1⟩) ∧
    (∀ e : String, check_pipenv_installed (.error e) = .error "UnboundLocalError") ∧
    (∀ (e : String) (r : ProcessResponse), check_pipenv_installed (.error e) ≠ .ok r) :=
  ⟨fun _ _ _ _ _ => rfl, fun _ => rfl, fun _ _ h => Except.noConfusion h⟩

/-- C5 witness: the divergence at the concrete failing input of a missing
pipenv binary (a FileNotFoundError raised by the spawn). -/
theorem c5_witness :
    check_node_version (.error "FileNotFoundError") 14 (-1) (-1) false =
      .ok ⟨"", "Node not found. Got FileNotFoundError.", 1⟩ ∧
    check_pipenv_installed (.error "FileNotFoundError") = .error "UnboundLocalError" :=
  ⟨c5_pipenv_handler_crashes.1 "FileNotFoundError" 14 (-1) (-1) false,
   c5_pipenv_handler_crashes.2.1 "FileNotFoundError"⟩

-- ### Claim C8: the pipenv wrong-binary guard.

/-- C8 counterexample: for output `"pipenv"` (no comma, so no second token)
the first comma-separated token is literally `"pipenv"`, yet the check
returns status code 1 (the IndexError from `parts[1]` is caught and turned
into a failure embedding the command's stderr), refuting "first token
pipenv implies status 0". -/
theorem c8_counterexample :
    check_pipenv_installed (.ok ⟨"pipenv", "boom", 0⟩) =
      .ok ⟨"", "Pipenv not found. Got boom.", 1⟩ ∧ (1 : Int) ≠ 0 :=
  ⟨rfl, by decide⟩

/-- C8 amended: when the first comma-separated token of the output differs
from `"pipenv"`, the check fails with the wrong-binary message naming that
token, without any version parsing; with first token `"pipenv"`, the check
returns status 0 exactly when a second comma-part exists and contains a
version-pattern match, while both failure modes of that parse — no second
part at all (IndexError from `parts[1]`) and a second part with no pattern
match (AttributeError from `_version_from_string`) — are caught and yield a
status-1 failure embedding the invocation's stderr. Status 0 is returned
only when the first token is `"pipenv"` and a matching second part exists. -/
theorem c8_presence_check_paths (res : ProcessResponse) :
    ((splitComma (pyStrip res.output.data)).headD [] ≠ "pipenv".data →
      check_pipenv_installed (.ok res) =
        .ok ⟨"", "Pipenv not found. Got " ++
          String.mk ((splitComma (pyStrip res.output.data)).headD []) ++ ".", 1⟩) ∧
    ((splitComma (pyStrip res.output.data)).headD [] = "pipenv".data →
      (∀ p1 v, (splitComma (pyStrip res.output.data))[1]? = some p1 →
          version_from_string (String.mk p1) = some v →
          check_pipenv_installed (.ok res) =
            .ok ⟨"Pipenv OK. Got version " ++ v ++ ".", "", 0⟩) ∧
      ((splitComma (pyStrip res.output.data))[1]? = none →
        check_pipenv_installed (.ok res) =
          .ok ⟨"", "Pipenv not found. Got " ++ res.error ++ ".", 1⟩) ∧
      (∀ p1, (splitComma (pyStrip res.output.data))[1]? = some p1 →
        version_from_string (String.mk p1) = none →
        check_pipenv_installed (.ok res) =
          .ok ⟨"", "Pipenv not found. Got " ++ res.error ++ ".", 1⟩)) ∧
    (∀ r : ProcessResponse, check_pipenv_installed (.ok res) = .ok r →
      r.status_code = 0 →
      (splitComma (pyStrip res.output.data)).headD [] = "pipenv".data ∧
      ∃ p1 v, (splitComma (pyStrip res.output.data))[1]? = some p1 ∧
        version_from_string (String.mk p1) = some v) := by
  refine ⟨fun h => ?_, fun h => ⟨fun p1 v h1 hv => ?_, fun h1 => ?_, fun p1 h1 hv => ?_⟩,
    fun r hr h0 => ?_⟩
  · simp only [check_pipenv_installed]
    rw [if_pos h]
  · simp only [check_pipenv_installed]
    rw [if_neg (not_not_intro h), h1]
    simp only [hv]
  · simp only [check_pipenv_installed]
    rw [if_neg (not_not_intro h), h1]
  · simp only [check_pipenv_installed]
    rw [if_neg (not_not_intro h), h1]
    simp only [hv]
  · simp only [check_pipenv_installed] at hr
    split at hr
    · next hf =>
      injection hr with h'
      subst h'
      simp at h0
    · next hf =>
      split at hr
      · next h1 =>
        injection hr with h'
        subst h'
        simp at h0
      · next p1 h1 =>
        split at hr
        · next hv =>
          injection hr with h'
          subst h'
          simp at h0
        · next v hv =>
          exact ⟨not_not.mp hf, p1, v, h1, hv⟩

/-- C8 witness: the amended theorem at the spec's own example
`"otherpkg, version 9.0.0"`, at a well-formed pipenv output, and at a
second comma-part that carries no version pattern. -/
theorem c8_witness :
    check_pipenv_installed (.ok ⟨"otherpkg, version 9.0.0", "", 0⟩) =
      .ok ⟨"", "Pipenv not found. Got otherpkg.", 1⟩ ∧
    check_pipenv_installed (.ok ⟨"pipenv, version 2020.11.15", "", 0⟩) =
      .ok ⟨"Pipenv OK. Got version 2020.11.15.", "", 0⟩ ∧
    check_pipenv_installed (.ok ⟨"pipenv, hello", "oops", 0⟩) =
      .ok ⟨"", "Pipenv not found. Got oops.", 1⟩ := by
  refine ⟨?_, ?_, ?_⟩
  · have h := (c8_presence_check_paths ⟨"otherpkg, version 9.0.0", "", 0⟩).1 (by decide)
    exact h.trans (by rfl)
  · have h := ((c8_presence_check_paths ⟨"pipenv, version 2020.11.15", "", 0⟩).2.1 (by decide)).1
      " version 2020.11.15".data "2020.11.15" (by decide) (by rfl)
    exact h.trans (by rfl)
  · have h := ((c8_presence_check_paths ⟨"pipenv, hello", "oops", 0⟩).2.1 (by decide)).2.2
      " hello".data (by decide) (by rfl)
    exact h.trans (by rfl)

-- ### Claim C2: extraction of the first version substring.

/-- Projection of a `String.mk` back to its character list. -/
theorem data_mk (l : List Char) : (String.mk l).data = l := rfl

/-- takeWhile over an append whose left part satisfies the predicate. -/
theorem takeWhile_append_of_forall {p : Char → Bool} (l r : List Char)
    (h : ∀ a ∈ l, p a = true) :
    (l ++ r).takeWhile p = l ++ r.takeWhile p := by
  induction l with
  | nil => simp
  | cons c t ih =>
    simp only [List.cons_append, List.takeWhile_cons, h c (by simp)]
    simp [ih fun a ha => h a (by simp [ha])]

/-- dropWhile over an append whose left part satisfies the predicate. -/
theorem dropWhile_append_of_forall {p : Char → Bool} (l r : List Char)
    (h : ∀ a ∈ l, p a = true) :
    (l ++ r).dropWhile p = r.dropWhile p := by
  induction l with
  | nil => simp
  | cons c t ih =>
    simp only [List.cons_append, List.dropWhile_cons, h c (by simp)]
    simp [ih fun a ha => h a (by simp [ha])]

/-- takeWhile on a list whose head (when present) fails the predicate. -/
theorem takeWhile_eq_nil_of_head {p : Char → Bool} (q : List Char)
    (h : ∀ d, q.head? = some d → p d = false) : q.takeWhile p = [] := by
  cases q with
  | nil => rfl
  | cons d t => simp [List.takeWhile_cons, h d rfl]

/-- If dropWhile yields a cons, its head fails the predicate. -/
theorem dropWhile_cons_head_false {p : Char → Bool} :
    ∀ (s : List Char) (e : Char) (rest : List Char),
      s.dropWhile p = e :: rest → p e = false := by
  intro s
  induction s with
  | nil => intro e rest h; simp at h
  | cons c t ih =>
    intro e rest h
    rw [List.dropWhile_cons] at h
    by_cases hc : p c = true
    · rw [if_pos hc] at h; exact ih e rest h
    · rw [if_neg hc] at h
      injection h with h1 h2
      rw [← h1]; exact Bool.eq_false_iff.mpr hc

/-- If dropWhile yields a cons, its head is a member of the list. -/
theorem dropWhile_cons_head_mem {p : Char → Bool} :
    ∀ (s : List Char) (e : Char) (rest : List Char),
      s.dropWhile p = e :: rest → e ∈ s := by
  intro s
  induction s with
  | nil => intro e rest h; simp at h
  | cons c t ih =>
    intro e rest h
    rw [List.dropWhile_cons] at h
    by_cases hc : p c = true
    · rw [if_pos hc] at h; exact List.mem_cons_of_mem c (ih e rest h)
    · rw [if_neg hc] at h
      injection h with h1 h2
      rw [← h1]; exact List.mem_cons_self c t

/-- dropWhile distributes over an append when it already stops inside the
left part. -/
theorem dropWhile_append_of_cons {p : Char → Bool} :
    ∀ (s T : List Char) (e : Char) (rest : List Char),
      s.dropWhile p = e :: rest → (s ++ T).dropWhile p = e :: (rest ++ T) := by
  intro s
  induction s with
  | nil => intro T e rest h; simp at h
  | cons c t ih =>
    intro T e rest h
    rw [List.dropWhile_cons] at h
    rw [List.cons_append, List.dropWhile_cons]
    by_cases hc : p c = true
    · rw [if_pos hc] at h; rw [if_pos hc]; exact ih T e rest h
    · rw [if_neg hc] at h
      rw [if_neg hc]
      injection h with h1 h2
      rw [h1, h2]

/-- The anchored pattern on a well-formed version head: the three digit runs
are consumed exactly, stopping at the following non-digit (or the end). -/
theorem matchVersionAt_wellformed (x y z q : List Char)
    (hxd : ∀ c ∈ x, c.isDigit = true) (hyd : ∀ c ∈ y, c.isDigit = true)
    (hzd : ∀ c ∈ z, c.isDigit = true)
    (hq : ∀ d, q.head? = some d → d.isDigit = false) :
    matchVersionAt (x ++ '.' :: (y ++ '.' :: (z ++ q))) =
      some (x ++ '.' :: (y ++ '.' :: z)) := by
  have hdot : ('.' : Char).isDigit = false := by decide
  simp only [matchVersionAt]
  rw [takeWhile_append_of_forall x _ hxd, dropWhile_append_of_forall x _ hxd]
  simp only [List.takeWhile_cons, List.dropWhile_cons, hdot]
  simp only [Bool.false_eq_true, if_false]
  rw [takeWhile_append_of_forall y _ hyd, dropWhile_append_of_forall y _ hyd]
  simp only [List.takeWhile_cons, List.dropWhile_cons, hdot]
  simp only [Bool.false_eq_true, if_false]
  rw [takeWhile_append_of_forall z _ hzd]
  rw [takeWhile_eq_nil_of_head q hq]
  simp

/-- Inside a dot-free run of text that does not end in a digit, the anchored
pattern can never fire. -/
theorem matchVersionAt_none_inside (s T : List Char) (hs : s ≠ [])
    (hdot : ∀ c ∈ s, c ≠ '.')
    (hlast : ∀ d, s.getLast? = some d → d.isDigit = false) :
    matchVersionAt (s ++ T) = none := by
  have hne : s.dropWhile Char.isDigit ≠ [] := by
    intro hnil
    have hall : ∀ a ∈ s, a.isDigit = true := List.dropWhile_eq_nil_iff.mp hnil
    have hd : s.getLast? = some (s.getLast hs) := List.getLast?_eq_getLast_of_ne_nil hs
    have hmem : s.getLast hs ∈ s := List.getLast_mem hs
    have h1 := hall _ hmem
    rw [hlast _ hd] at h1
    exact Bool.false_ne_true h1
  obtain ⟨e, rest, he⟩ : ∃ e rest, s.dropWhile Char.isDigit = e :: rest := by
    cases h : s.dropWhile Char.isDigit with
    | nil => exact absurd h hne
    | cons e rest => exact ⟨e, rest, rfl⟩
  have hef : e.isDigit = false := dropWhile_cons_head_false s e rest he
  have hem : e ∈ s := dropWhile_cons_head_mem s e rest he
  have hene : e ≠ '.' := hdot e hem
  simp only [matchVersionAt]
  rw [dropWhile_append_of_cons s T e rest he]
  split
  · next heq =>
    injection heq with h1 h2
    exact absurd h1 hene
  · rfl

/-- The search over clean leading text reaches the first match of the rest. -/
theorem searchVersion_append (p T : List Char)
    (hdot : ∀ c ∈ p, c ≠ '.')
    (hlast : ∀ d, p.getLast? = some d → d.isDigit = false)
    (m : List Char) (hm : matchVersionAt T = some m) (hT : T ≠ []) :
    searchVersion (p ++ T) = some m := by
  induction p with
  | nil =>
    cases T with
    | nil => exact absurd rfl hT
    | cons a t => simpa [searchVersion] using (by rw [hm] : _ = some m)
  | cons c t ih =>
    have hnone : matchVersionAt (c :: (t ++ T)) = none := by
      have := matchVersionAt_none_inside (c :: t) T (by simp) hdot hlast
      rwa [List.cons_append] at this
    rw [List.cons_append]
    simp only [searchVersion, hnone]
    apply ih
    · intro a ha; exact hdot a (List.mem_cons_of_mem c ha)
    · intro d hd
      apply hlast d
      cases t with
      | nil => simp at hd
      | cons b u => rwa [List.getLast?_cons_cons]

/-- C2 counterexample: the pattern in the source is `[0-9]*\.[0-9]*\.[0-9]*`
with star quantifiers, so the degenerate match `".."` (empty digit runs)
preceding a well-formed version wins the leftmost search: on `"..1.2.3"`,
which contains the well-formed `"1.2.3"`, extraction returns `"..1"`. -/
theorem c2_counterexample :
    version_from_string "..1.2.3" = some "..1" ∧
    ("..1.2.3" : String) = ".." ++ "1.2.3" ∧
    some ("..1" : String) ≠ some "1.2.3" := by
  refine ⟨rfl, rfl, by decide⟩

/-- C2 amended: extraction returns the leftmost, greedy match of
`[0-9]*\.[0-9]*\.[0-9]*` (whose digit runs may be empty). It returns exactly
the first well-formed `X.Y.Z` occurrence whenever the preceding text admits
no earlier (possibly degenerate) match and does not merge into it: here,
for leading text with no dot and no trailing digit, followed by non-empty
digit runs X, Y, Z, followed by text not starting with a digit. -/
theorem c2_first_wellformed_extraction (p x y z q : List Char)
    (hx : x ≠ []) (hxd : ∀ c ∈ x, c.isDigit = true)
    (hy : y ≠ []) (hyd : ∀ c ∈ y, c.isDigit = true)
    (hz : z ≠ []) (hzd : ∀ c ∈ z, c.isDigit = true)
    (hpdot : ∀ c ∈ p, c ≠ '.')
    (hplast : ∀ d, p.getLast? = some d → d.isDigit = false)
    (hqh : ∀ d, q.head? = some d → d.isDigit = false) :
    version_from_string (String.mk (p ++ (x ++ '.' :: (y ++ '.' :: (z ++ q))))) =
      some (String.mk (x ++ '.' :: (y ++ '.' :: z))) := by
  unfold version_from_string
  rw [data_mk]
  rw [searchVersion_append p _ hpdot hplast _
    (matchVersionAt_wellformed x y z q hxd hyd hzd hqh) (by simp)]
  rfl

/-- C2 witness: the amended theorem at `"v 1.2.3"` (leading text, trailing
empty) and the degenerate-free extraction it yields. -/
theorem c2_witness :
    version_from_string (String.mk ("v ".data ++
        ("1".data ++ '.' :: ("2".data ++ '.' :: ("3".data ++ ([] : List Char)))))) =
      some (String.mk ("1".data ++ '.' :: ("2".data ++ '.' :: "3".data))) := by
  apply c2_first_wellformed_extraction "v ".data "1".data "2".data "3".data ([] : List Char)
    (by decide) (by decide) (by decide) (by decide) (by decide) (by decide)
    (by decide)
  · intro d hd
    rw [show ("v ".data).getLast? = some ' ' from rfl] at hd
    injection hd with h
    rw [← h]
    rfl
  · intro d hd
    exact Option.noConfusion hd

-- ### Claim C6: the success and failure message formats.

/-- A dot-free run of text splits to itself. -/
theorem splitDot_no_dot (a : List Char) (h : ∀ c ∈ a, c ≠ '.') :
    splitDot a = [a] := by
  induction a with
  | nil => rfl
  | cons c t ih =>
    simp only [splitDot]
    rw [if_neg (h c (by simp))]
    rw [ih fun x hx => h x (by simp [hx])]

/-- Splitting past a dot-free head part. -/
theorem splitDot_append (a rest : List Char) (h : ∀ c ∈ a, c ≠ '.') :
    splitDot (a ++ '.' :: rest) = a :: splitDot rest := by
  induction a with
  | nil => simp [splitDot]
  | cons c t ih =>
    rw [List.cons_append]
    simp only [splitDot]
    rw [if_neg (h c (by simp))]
    rw [ih fun x hx => h x (by simp [hx])]

/-- A three-component version string splits into its three components. -/
theorem splitDot_three (a b c : List Char) (ha : ∀ ch ∈ a, ch ≠ '.')
    (hb : ∀ ch ∈ b, ch ≠ '.') (hc : ∀ ch ∈ c, ch ≠ '.') :
    splitDot (a ++ '.' :: (b ++ '.' :: c)) = [a, b, c] := by
  rw [splitDot_append a _ ha, splitDot_append b _ hb, splitDot_no_dot c hc]

/-- C6 counterexample: the two failure f-strings in the source are adjacent
with no separator, so the error reads `"... wrong version.Got ..."` — the
claimed `"<tool> wrong version. Got ..."` (with a space) is not a prefix of
the produced message. -/
theorem c6_counterexample :
    check_version "Node" "13.0.0" 14 (-1) (-1) false =
      .ok ⟨"", "Node wrong version.Got [13, 0, 0] expected 14", 1⟩ ∧
    ("Node wrong version. Got".data).isPrefixOf
      ("Node wrong version.Got [13, 0, 0] expected 14".data) = false := by
  exact ⟨rfl, rfl⟩

/-- C6 amended: on a well-formed parsed version, `_check_version` returns
status 0 with output `"<tool> version OK. Got <version>."` when the
comparison passes, and status 1 with error
`"<tool> wrong version.Got [<p0>, <p1>, <p2>] expected <expected>"` (no
space after the period, parts rendered as a Python list) when it fails,
where `<expected>` renders only the specified spec fields: major alone when
minor is unset, major.minor when patch is unset, and all three otherwise. -/
theorem c6_message_formats (binary : String) (a b c : List Char)
    (x y z major minor patch : Int) (exact : Bool)
    (ha : ∀ ch ∈ a, ch ≠ '.') (hb : ∀ ch ∈ b, ch ≠ '.') (hc : ∀ ch ∈ c, ch ≠ '.')
    (hxa : pyInt a = some x) (hyb : pyInt b = some y) (hzc : pyInt c = some z) :
    check_version binary (String.mk (a ++ '.' :: (b ++ '.' :: c))) major minor patch exact =
      (if (if exact then version_ok_exact x y z major minor patch
           else version_ok_min x y z major minor patch) then
        .ok ⟨binary ++ " version OK. Got " ++ String.mk (a ++ '.' :: (b ++ '.' :: c)) ++ ".", "", 0⟩
      else
        .ok ⟨"", binary ++ " wrong version.Got [" ++ toString x ++ ", " ++ toString y ++
          ", " ++ toString z ++ "] expected " ++ expectedRender major minor patch, 1⟩) := by
  simp only [check_version, data_mk, splitDot_three a b c ha hb hc, hxa, hyb, hzc]

/-- C6 witness: the amended theorem at version 13.0.0 against minimum spec
major 14, producing the spaceless failure message. -/
theorem c6_witness :
    check_version "Node" (String.mk ("13".data ++ '.' :: ("0".data ++ '.' :: "0".data)))
        14 (-1) (-1) false =
      .ok ⟨"", "Node wrong version.Got [13, 0, 0] expected 14", 1⟩ := by
  have h := c6_message_formats "Node" "13".data "0".data "0".data 13 0 0 14 (-1) (-1) false
    (by decide) (by decide) (by decide) (by decide) (by decide) (by decide)
  rw [h]
  rfl

-- ### Claim C9: the ProcessResponse invariant of the version-check core.

/-- Appending to a string preserves the data lists. -/
theorem data_append (a b : String) : (a ++ b).data = a.data ++ b.data := rfl

/-- A concatenation whose right part is non-empty is non-empty. -/
theorem append_str_ne_empty_right (a b : String) (h : b ≠ "") : a ++ b ≠ "" := by
  intro hc
  have hd : a.data ++ b.data = [] := by
    have := congrArg String.data hc
    rwa [data_append] at this
  exact h (congrArg String.mk (List.append_eq_nil.mp hd).2)

/-- A concatenation whose left part is non-empty is non-empty. -/
theorem append_str_ne_empty_left (a b : String) (h : a ≠ "") : a ++ b ≠ "" := by
  intro hc
  have hd : a.data ++ b.data = [] := by
    have := congrArg String.data hc
    rwa [data_append] at this
  exact h (congrArg String.mk (List.append_eq_nil.mp hd).1)

/-- Modelled from the spec: the success condition of a version check, in the
spec's words — the version string parses into exactly three integer
components and the comparison (exact or minimum mode) passes. Used only to
state the C9 invariant that status 0 is reported exactly on success. -/
def specCheckSuccess (version : String) (major minor patch : Int)
    (exact : Bool) : Bool :=
  match splitDot version.data with
  | [s0, s1, s2] =>
    match pyInt s0, pyInt s1, pyInt s2 with
    | some p0, some p1, some p2 =>
      if exact then version_ok_exact p0 p1 p2 major minor patch
      else version_ok_min p0 p1 p2 major minor patch
    | _, _, _ => false
  | _ => false

/-- The response invariant of `_check_version` alone, used for the C9 claim
theorem and for the per-tool wrappers that delegate to it. -/
theorem check_version_ok_invariant (binary version : String)
    (major minor patch : Int) (exact : Bool) (r : ProcessResponse)
    (h : check_version binary version major minor patch exact = .ok r) :
    (r.status_code = 0 ∨ r.status_code = 1) ∧
    (r.error ≠ "" ↔ r.status_code ≠ 0) ∧
    (r.status_code = 0 ↔ specCheckSuccess version major minor patch exact = true) ∧
    (r.status_code = 0 → r.output = binary ++ " version OK. Got " ++ version ++ ".") := by
  unfold check_version at h
  split at h
  · next s0 s1 s2 heq =>
    split at h
    · next p0 p1 p2 h0 h1 h2 =>
      have hsp : specCheckSuccess version major minor patch exact =
          (if exact then version_ok_exact p0 p1 p2 major minor patch
           else version_ok_min p0 p1 p2 major minor patch) := by
        simp [specCheckSuccess, heq, h0, h1, h2]
      by_cases hv : (if exact then version_ok_exact p0 p1 p2 major minor patch
          else version_ok_min p0 p1 p2 major minor patch) = true
      · rw [if_pos hv] at h
        injection h with h'
        subst h'
        refine ⟨Or.inl rfl, by simp, ?_, fun _ => rfl⟩
        rw [hsp]
        simp [hv]
      · rw [if_neg hv] at h
        injection h with h'
        subst h'
        refine ⟨Or.inr rfl, ?_, ?_, by simp⟩
        · constructor
          · intro _; simp
          · intro _
            apply append_str_ne_empty_left
            apply append_str_ne_empty_right
            decide
        · rw [hsp]
          constructor
          · intro h0'; exact absurd h0' (by simp)
          · intro hs; exact absurd hs hv
    · next hn =>
      exact absurd h (by simp)
  · next hn =>
    injection h with h'
    subst h'
    refine ⟨Or.inr rfl, ?_, ?_, by simp [formatError]⟩
    · constructor
      · intro _; simp [formatError]
      · intro _
        apply append_str_ne_empty_right
        decide
    · constructor
      · intro h0'; exact absurd h0' (by simp [formatError])
      · intro hs
        unfold specCheckSuccess at hs
        split at hs
        · next s0 s1 s2 heq => exact (hn s0 s1 s2 heq).elim
        · simp at hs

/-- A raised ValueError from `_check_version` only happens when the check did
not succeed (one of the three parts failed to parse). -/
theorem check_version_error_spec_false (binary version : String)
    (major minor patch : Int) (exact : Bool) (e : String)
    (h : check_version binary version major minor patch exact = .error e) :
    specCheckSuccess version major minor patch exact = false := by
  unfold check_version at h
  split at h
  · next s0 s1 s2 heq =>
    split at h
    · next p0 p1 p2 h0 h1 h2 =>
      by_cases hv : (if exact then version_ok_exact p0 p1 p2 major minor patch
          else version_ok_min p0 p1 p2 major minor patch) = true
      · rw [if_pos hv] at h; exact Except.noConfusion h
      · rw [if_neg hv] at h; exact Except.noConfusion h
    · next hn =>
      unfold specCheckSuccess
      split
      · next s0' s1' s2' heq' =>
        rw [heq] at heq'
        injection heq' with e0 t0
        injection t0 with e1 t1
        injection t1 with e2 t2
        subst e0; subst e1; subst e2
        split
        · next p0 p1 p2 h0 h1 h2 => exact (hn p0 p1 p2 h0 h1 h2).elim
        · rfl
      · next => rfl
  · next hn => exact Except.noConfusion h

/-- Modelled from the spec: success of a per-tool check in the spec's words —
the invocation and extraction produced a version string whose comparison
passes. Used only to state the C9 invariant for the tool wrappers. -/
def specWrapSuccess (vres : Except String String)
    (major minor patch : Int) (exact : Bool) : Bool :=
  match vres with
  | .error _ => false
  | .ok s =>
    match version_from_string s with
    | none => false
    | some version => specCheckSuccess version major minor patch exact

/-- The node check is the generic wrapper on the stripped stdout. -/
theorem check_node_version_eq_wrap (run : Except String ProcessResponse)
    (major minor patch : Int) (exact : Bool) :
    check_node_version run major minor patch exact =
      tool_wrap "Node" (toolRunExtract run) major minor patch exact := by
  cases run <;> rfl

/-- The npm check is the generic wrapper on the stripped stdout. -/
theorem check_npm_version_eq_wrap (run : Except String ProcessResponse)
    (major minor patch : Int) (exact : Bool) :
    check_npm_version run major minor patch exact =
      tool_wrap "NPM" (toolRunExtract run) major minor patch exact := by
  cases run <;> rfl

/-- The docker check is the generic wrapper on the extracted client version. -/
theorem check_docker_version_eq_wrap (clientVersion : Except String String)
    (major minor patch : Int) (exact : Bool) :
    check_docker_version clientVersion major minor patch exact =
      tool_wrap "Docker" clientVersion major minor patch exact := by
  cases clientVersion <;> rfl

/-- The compose check is the generic wrapper on the stripped stdout. -/
theorem check_docker_compose_version_eq_wrap (run : Except String ProcessResponse)
    (major minor patch : Int) (exact : Bool) :
    check_docker_compose_version run major minor patch exact =
      tool_wrap "Docker Compose" (toolRunExtract run) major minor patch exact := by
  cases run <;> rfl

/-- The imagemagick check is the generic wrapper on the stripped stdout. -/
theorem check_imagemagick_version_eq_wrap (run : Except String ProcessResponse)
    (major minor patch : Int) (exact : Bool) :
    check_imagemagick_version run major minor patch exact =
      tool_wrap "ImageMagick" (toolRunExtract run) major minor patch exact := by
  cases run <;> rfl

/-- The git check is the generic wrapper on the stripped stdout. -/
theorem check_git_version_eq_wrap (run : Except String ProcessResponse)
    (major minor patch : Int) (exact : Bool) :
    check_git_version run major minor patch exact =
      tool_wrap "git" (toolRunExtract run) major minor patch exact := by
  cases run <;> rfl

/-- The shared response invariant of the per-tool try/except wrappers. -/
theorem tool_wrap_invariant (tool : String) (vres : Except String String)
    (major minor patch : Int) (exact : Bool) (r : ProcessResponse)
    (h : tool_wrap tool vres major minor patch exact = .ok r) :
    (r.status_code = 0 ∨ r.status_code = 1) ∧
    (r.error ≠ "" ↔ r.status_code ≠ 0) ∧
    (r.status_code = 0 ↔ specWrapSuccess vres major minor patch exact = true) ∧
    (r.status_code = 0 → ∃ v, r.output = tool ++ " version OK. Got " ++ v ++ ".") := by
  cases vres with
  | error err =>
    unfold tool_wrap at h
    simp only at h
    injection h with h'
    subst h'
    refine ⟨Or.inr rfl, ?_, ?_, by simp⟩
    · constructor
      · intro _; simp
      · intro _
        apply append_str_ne_empty_right
        decide
    · constructor
      · intro h0'; exact absurd h0' (by simp)
      · intro hs; exact absurd hs (by simp [specWrapSuccess])
  | ok s =>
    unfold tool_wrap at h
    simp only at h
    split at h
    · next hv =>
      injection h with h'
      subst h'
      refine ⟨Or.inr rfl, ?_, ?_, by simp⟩
      · constructor
        · intro _; simp
        · intro _
          apply append_str_ne_empty_right
          decide
      · constructor
        · intro h0'; exact absurd h0' (by simp)
        · intro hs; exact absurd hs (by simp [specWrapSuccess, hv])
    · next version hv =>
      have hsw : specWrapSuccess (Except.ok s) major minor patch exact =
          specCheckSuccess version major minor patch exact := by
        simp [specWrapSuccess, hv]
      split at h
      · next r' hcv =>
        injection h with h'
        subst h'
        obtain ⟨ha, hb, hc, hd⟩ :=
          check_version_ok_invariant tool version major minor patch exact r' hcv
        exact ⟨ha, hb, by rw [hsw]; exact hc, fun h0 => ⟨version, hd h0⟩⟩
      · next e hcv =>
        injection h with h'
        subst h'
        refine ⟨Or.inr rfl, ?_, ?_, by simp⟩
        · constructor
          · intro _; simp
          · intro _
            apply append_str_ne_empty_right
            decide
        · rw [hsw,
            check_version_error_spec_false tool version major minor patch exact e hcv]
          constructor
          · intro h0'; exact absurd h0' (by simp)
          · intro hs; exact absurd hs (by simp)

/-- The response invariant of the pipenv presence check, for the C9 claim
theorem. -/
theorem check_pipenv_ok_invariant (run : Except String ProcessResponse)
    (r : ProcessResponse) (h : check_pipenv_installed run = .ok r) :
    (r.status_code = 0 ∨ r.status_code = 1) ∧
    (r.error ≠ "" ↔ r.status_code ≠ 0) ∧
    (r.status_code = 0 → ∃ v, r.output = "Pipenv OK. Got version " ++ v ++ ".") := by
  unfold check_pipenv_installed at h
  match run with
  | .error e => exact absurd h (by simp)
  | .ok result =>
    simp only at h
    split at h
    · next hfirst =>
      injection h with h'
      subst h'
      refine ⟨Or.inr rfl, ?_, by simp⟩
      constructor
      · intro _; simp
      · intro _
        apply append_str_ne_empty_right
        decide
    · next hfirst =>
      split at h
      · next h1 =>
        injection h with h'
        subst h'
        refine ⟨Or.inr rfl, ?_, by simp⟩
        constructor
        · intro _; simp
        · intro _
          apply append_str_ne_empty_right
          decide
      · next p1 h1 =>
        split at h
        · next hv =>
          injection h with h'
          subst h'
          refine ⟨Or.inr rfl, ?_, by simp⟩
          constructor
          · intro _; simp
          · intro _
            apply append_str_ne_empty_right
            decide
        · next v hv =>
          injection h with h'
          subst h'
          exact ⟨Or.inl rfl, by simp, fun _ => ⟨v, rfl⟩⟩

/-- C9: every ProcessResponse produced by the version-check core —
`_check_version` and each per-tool check function — has status code 0 or 1;
status 0 exactly when the check succeeded; a non-empty error field exactly
when the status is non-zero; and on success the output field carries the
success message. -/
theorem c9_response_invariant :
    (∀ (binary version : String) (major minor patch : Int) (exact : Bool)
        (r : ProcessResponse),
      check_version binary version major minor patch exact = .ok r →
        (r.status_code = 0 ∨ r.status_code = 1) ∧
        (r.error ≠ "" ↔ r.status_code ≠ 0) ∧
        (r.status_code = 0 ↔ specCheckSuccess version major minor patch exact = true) ∧
        (r.status_code = 0 → r.output = binary ++ " version OK. Got " ++ version ++ ".")) ∧
    (∀ (run : Except String ProcessResponse) (major minor patch : Int)
        (exact : Bool) (r : ProcessResponse),
      check_node_version run major minor patch exact = .ok r →
        (r.status_code = 0 ∨ r.status_code = 1) ∧
        (r.error ≠ "" ↔ r.status_code ≠ 0) ∧
        (r.status_code = 0 ↔ specWrapSuccess (toolRunExtract run) major minor patch exact = true) ∧
        (r.status_code = 0 → ∃ v, r.output = "Node" ++ " version OK. Got " ++ v ++ ".")) ∧
    (∀ (run : Except String ProcessResponse) (major minor patch : Int)
        (exact : Bool) (r : ProcessResponse),
      check_npm_version run major minor patch exact = .ok r →
        (r.status_code = 0 ∨ r.status_code = 1) ∧
        (r.error ≠ "" ↔ r.status_code ≠ 0) ∧
        (r.status_code = 0 ↔ specWrapSuccess (toolRunExtract run) major minor patch exact = true) ∧
        (r.status_code = 0 → ∃ v, r.output = "NPM" ++ " version OK. Got " ++ v ++ ".")) ∧
    (∀ (vmajor vminor vmicro : Nat) (major minor patch : Int) (exact : Bool)
        (r : ProcessResponse),
      check_python_version vmajor vminor vmicro major minor patch exact = .ok r →
        (r.status_code = 0 ∨ r.status_code = 1) ∧
        (r.error ≠ "" ↔ r.status_code ≠ 0) ∧
        (r.status_code = 0 ↔ specCheckSuccess
          (toString vmajor ++ "." ++ toString vminor ++ "." ++ toString vmicro)
          major minor patch exact = true) ∧
        (r.status_code = 0 → r.output = "Python" ++ " version OK. Got " ++
          (toString vmajor ++ "." ++ toString vminor ++ "." ++ toString vmicro) ++ ".")) ∧
    (∀ (clientVersion : Except String String) (major minor patch : Int)
        (exact : Bool) (r : ProcessResponse),
      check_docker_version clientVersion major minor patch exact = .ok r →
        (r.status_code = 0 ∨ r.status_code = 1) ∧
        (r.error ≠ "" ↔ r.status_code ≠ 0) ∧
        (r.status_code = 0 ↔ specWrapSuccess clientVersion major minor patch exact = true) ∧
        (r.status_code = 0 → ∃ v, r.output = "Docker" ++ " version OK. Got " ++ v ++ ".")) ∧
    (∀ (run : Except String ProcessResponse) (major minor patch : Int)
        (exact : Bool) (r : ProcessResponse),
      check_docker_compose_version run major minor patch exact = .ok r →
        (r.status_code = 0 ∨ r.status_code = 1) ∧
        (r.error ≠ "" ↔ r.status_code ≠ 0) ∧
        (r.status_code = 0 ↔ specWrapSuccess (toolRunExtract run) major minor patch exact = true) ∧
        (r.status_code = 0 → ∃ v, r.output = "Docker Compose" ++ " version OK. Got " ++ v ++ ".")) ∧
    (∀ (run : Except String ProcessResponse) (major minor patch : Int)
        (exact : Bool) (r : ProcessResponse),
      check_imagemagick_version run major minor patch exact = .ok r →
        (r.status_code = 0 ∨ r.status_code = 1) ∧
        (r.error ≠ "" ↔ r.status_code ≠ 0) ∧
        (r.status_code = 0 ↔ specWrapSuccess (toolRunExtract run) major minor patch exact = true) ∧
        (r.status_code = 0 → ∃ v, r.output = "ImageMagick" ++ " version OK. Got " ++ v ++ ".")) ∧
    (∀ (run : Except String ProcessResponse) (major minor patch : Int)
        (exact : Bool) (r : ProcessResponse),
      check_git_version run major minor patch exact = .ok r →
        (r.status_code = 0 ∨ r.status_code = 1) ∧
        (r.error ≠ "" ↔ r.status_code ≠ 0) ∧
        (r.status_code = 0 ↔ specWrapSuccess (toolRunExtract run) major minor patch exact = true) ∧
        (r.status_code = 0 → ∃ v, r.output = "git" ++ " version OK. Got " ++ v ++ ".")) ∧
    (∀ (run : Except String ProcessResponse) (r : ProcessResponse),
      check_pipenv_installed run = .ok r →
        (r.status_code = 0 ∨ r.status_code = 1) ∧
        (r.error ≠ "" ↔ r.status_code ≠ 0) ∧
        (r.status_code = 0 → ∃ v, r.output = "Pipenv OK. Got version " ++ v ++ ".")) := by
  refine ⟨check_version_ok_invariant, ?_, ?_, ?_, ?_, ?_, ?_, ?_, check_pipenv_ok_invariant⟩
  · intro run major minor patch exact r h
    rw [check_node_version_eq_wrap] at h
    exact tool_wrap_invariant "Node" (toolRunExtract run) major minor patch exact r h
  · intro run major minor patch exact r h
    rw [check_npm_version_eq_wrap] at h
    exact tool_wrap_invariant "NPM" (toolRunExtract run) major minor patch exact r h
  · intro vmajor vminor vmicro major minor patch exact r h
    exact check_version_ok_invariant "Python"
      (toString vmajor ++ "." ++ toString vminor ++ "." ++ toString vmicro)
      major minor patch exact r h
  · intro clientVersion major minor patch exact r h
    rw [check_docker_version_eq_wrap] at h
    exact tool_wrap_invariant "Docker" clientVersion major minor patch exact r h
  · intro run major minor patch exact r h
    rw [check_docker_compose_version_eq_wrap] at h
    exact tool_wrap_invariant "Docker Compose" (toolRunExtract run) major minor patch exact r h
  · intro run major minor patch exact r h
    rw [check_imagemagick_version_eq_wrap] at h
    exact tool_wrap_invariant "ImageMagick" (toolRunExtract run) major minor patch exact r h
  · intro run major minor patch exact r h
    rw [check_git_version_eq_wrap] at h
    exact tool_wrap_invariant "git" (toolRunExtract run) major minor patch exact r h

/-- C9 witness: the invariant applied to a passing Node check (via
`_check_version`), to a passing npm wrapper run, and to a successful pipenv
probe. -/
theorem c9_witness :
    (((⟨"Node version OK. Got 1.2.3.", "", 0⟩ : ProcessResponse).error ≠ "") ↔
      ((⟨"Node version OK. Got 1.2.3.", "", 0⟩ : ProcessResponse).status_code ≠ 0)) ∧
    (∃ v, (⟨"NPM version OK. Got 6.14.13.", "", 0⟩ : ProcessResponse).output =
      "NPM" ++ " version OK. Got " ++ v ++ ".") ∧
    (∃ v, (⟨"Pipenv OK. Got version 2020.11.15.", "", 0⟩ : ProcessResponse).output =
      "Pipenv OK. Got version " ++ v ++ ".") := by
  refine ⟨?_, ?_, ?_⟩
  · exact (c9_response_invariant.1 "Node" "1.2.3" 1 (-1) (-1) false
      ⟨"Node version OK. Got 1.2.3.", "", 0⟩ rfl).2.1
  · exact (c9_response_invariant.2.2.1 (.ok ⟨"6.14.13", "", 0⟩) 6 (-1) (-1) false
      ⟨"NPM version OK. Got 6.14.13.", "", 0⟩ (by rfl)).2.2.2 rfl
  · exact (c9_response_invariant.2.2.2.2.2.2.2.2 (.ok ⟨"pipenv, version 2020.11.15", "", 0⟩)
      ⟨"Pipenv OK. Got version 2020.11.15.", "", 0⟩ rfl).2.2 rfl
